import Mathlib

/-
Verification development for the monetized reverse-proxy gateway
(routes/proxy.ts and utils/updateMonetizedUrls.ts).

The embedding models the endpoint resolution, monetized-URL
materialization, payment gating, forwarding and call-ledger pipeline.
External collaborators (the Supabase registry, the x402-stacks payment
middleware and the payment facilitator) are modelled at their contract
boundary: their outcomes are explicit inputs of the modelled functions,
and every piece of control flow and data construction that lives in the
repository source is translated directly.
-/

/-! ## Data model (registry rows, as selected by the proxy route) -/

/-- A row of the users table, as joined by the endpoint resolver. -/
structure UserRow where
  username : String
  wallet_address : String
deriving DecidableEq, Repr

/-- A row of the apis table, as joined by the endpoint resolver. -/
structure ApiRow where
  api_name_slug : String
  api_name : String
  user : UserRow
deriving DecidableEq, Repr

/-- A row of the endpoints table.  `monetized_url` is `none` while the
canonical public URL has not been materialized yet. -/
structure EndpointRow where
  id : String
  endpoint_path : String
  original_url : String
  price_microstx : Nat
  active : Bool
  monetized_url : Option String
  api : ApiRow
deriving DecidableEq, Repr

/-- The endpoint configuration the route attaches to the request
(`req.endpointConfig` in proxy.ts). -/
structure EndpointConfig where
  id : String
  price_microstx : Nat
  developer_wallet : String
  original_url : String
deriving DecidableEq, Repr

/-- A verified payment proof, as attached to the request context after the
gate reaches the Verified state (the object returned by `getPayment`). -/
structure PaymentProof where
  payer : String
  transaction : String
  network : String
deriving DecidableEq, Repr

/-- A call-ledger row (the api_calls table). -/
structure CallRecord where
  endpoint_id : String
  caller_wallet : String
  tx_hash : String
  amount_paid : Nat
  status_code : Option Nat
  latency_ms : Option Nat
deriving DecidableEq, Repr

/-- A write issued against the call ledger.  `fireAndForget` records how the
source dispatches the write: `false` for a write that is awaited on the
response path, `true` for a detached write whose promise is only observed by
a logging continuation. -/
inductive LedgerOp where
  | insert (record : CallRecord) (fireAndForget : Bool)
  | update (txKey : String) (statusCode : Nat) (latencyMs : Nat) (fireAndForget : Bool)
deriving DecidableEq, Repr

/-- Is this ledger write the admission insert? -/
def LedgerOp.isInsert : LedgerOp → Bool
  | .insert _ _ => true
  | .update _ _ _ _ => false

/-- Is this ledger write the completion update? -/
def LedgerOp.isUpdate : LedgerOp → Bool
  | .insert _ _ => false
  | .update _ _ _ _ => true

/-! ## JavaScript truthiness helpers -/

/-- JavaScript truthiness of an optional string: null, undefined and the
empty string are falsy. -/
def truthyOpt : Option String → Bool
  | some s => s != ""
  | none => false

/-- Model of the JavaScript expression `a || b` on optional strings where an
empty string counts as falsy (used for `req.query.privateKey || req.headers`
fallback chains). -/
def truthy : Option String → Option String
  | some s => if s == "" then none else some s
  | none => none

/-- Model of `o || d` where `o` is a possibly-missing string field and `d`
the fallback value. -/
def orTruthy (o : Option String) (d : String) : String :=
  match o with
  | some s => if s == "" then d else s
  | none => d

/-- The effective private key of a request:
`req.query.privateKey as string || req.headers[x-private-key]`, followed by
the `if (privateKey)` truthiness test. -/
def effectivePrivateKey (q h : Option String) : Option String :=
  match truthy q with
  | some s => some s
  | none => truthy h

/-! ## Human-readable price rendering -/

/-- Zero-padded six-digit rendering of the fractional micro-unit part. -/
def pad6 (k : Nat) : String :=
  let s := toString k
  String.mk (List.replicate (6 - s.length) '0') ++ s

/-- Exact rendering of `n / 1000000` with six decimal places; this is the
value of the JavaScript `(parseInt(n) / 1000000).toFixed(6)` for every
price in the representable range, because `n` micro-units has an exact
six-decimal expansion and the double regains it after rounding. -/
def toFixed6 (n : Nat) : String :=
  toString (n / 1000000) ++ "." ++ pad6 (n % 1000000)

/-- Model of `s.replace(/\.?0+$/, "")`: the leftmost match of the pattern is
the maximal run of trailing zero digits extended by one immediately
preceding dot, so the replacement drops the trailing zeros and, when the
zeros directly follow the dot, the dot as well. -/
def stripTrailingZeros (s : String) : String :=
  let rev := s.data.reverse
  let rev' := rev.dropWhile (fun c => c == '0')
  if rev'.length == rev.length then s
  else
    match rev' with
    | '.' :: rest => String.mk rest.reverse
    | _ => String.mk rev'.reverse

/-- The human-readable STX amount computed at line 79 of proxy.ts. -/
def priceSTX (n : Nat) : String :=
  stripTrailingZeros (toFixed6 n)

/-- ASCII lowercase of a character (header names are ASCII). -/
def lowerChar (c : Char) : Char :=
  if 'A' ≤ c && c ≤ 'Z' then Char.ofNat (c.toNat + 32) else c

/-- Model of toLowerCase on header names. -/
def lowerString (s : String) : String :=
  String.mk (s.data.map lowerChar)

/-! ## Target URL parsing (the `new URL(targetUrl)` step) -/

/-- The components of the origin URL that the forwarding proxy uses. -/
structure TargetUrl where
  scheme : String
  host : String
  pathname : String
  search : String
deriving DecidableEq, Repr

/-- Split a character list at the first occurrence of the scheme separator,
returning the part before it and the part after it. -/
def splitOnSchemeSep : List Char → Option (List Char × List Char)
  | [] => none
  | ':' :: '/' :: '/' :: rest => some ([], rest)
  | x :: xs =>
    match splitOnSchemeSep xs with
    | some r => some (x :: r.fst, r.snd)
    | none => none

/-- Minimal model of the WHATWG `new URL` constructor as used on origin
URLs: scheme, host, pathname (defaulting to the root path) and search
string.  A string without a scheme separator, with an empty scheme or with
an empty host is rejected, which models the constructor throwing. -/
def parseTargetUrl (s : String) : Option TargetUrl :=
  match splitOnSchemeSep s.data with
  | none => none
  | some (schemeChars, rest) =>
    if schemeChars.length == 0 then none
    else
      let host := rest.takeWhile (fun c => !(c == '/') && !(c == '?'))
      if host.length == 0 then none
      else
        let tail := rest.drop host.length
        let pathChars := tail.takeWhile (fun c => !(c == '?'))
        let searchChars := tail.drop pathChars.length
        some
          { scheme := String.mk schemeChars
            host := String.mk host
            pathname := if pathChars.length == 0 then "/" else String.mk pathChars
            search := String.mk searchChars }

/-! ## Endpoint resolution -/

/-- Does a row match the (owner username, API slug, endpoint path) key of
the request (the three `.eq` filters of the resolver query)? -/
def matchesKey (e : EndpointRow) (username apiName path : String) : Bool :=
  e.api.user.username == username &&
  e.api.api_name_slug == apiName &&
  e.endpoint_path == path

/-- The endpoint resolver: the supabase query filters on the three key
components and `active = true`, and `.single()` succeeds exactly when one
row matches. -/
def resolveEndpoint (db : List EndpointRow) (username apiName path : String) :
    Option EndpointRow :=
  match db.filter (fun e => matchesKey e username apiName path && e.active) with
  | [e] => some e
  | _ => none

/-! ## Monetized-URL materializer (utils/updateMonetizedUrls.ts) -/

/-- The canonical monetized URL of an endpoint row, exactly as built at line
670 of the source. -/
def computeMonetizedUrl (domain : String) (e : EndpointRow) : String :=
  domain ++ "/" ++ e.api.user.username ++ "/" ++ e.api.api_name_slug ++ "/" ++ e.endpoint_path

/-- The guard of the materializer: username, API slug and endpoint path must
all be present (non-empty, since JavaScript treats the empty string and a
missing field alike as falsy). -/
def materializeReadyFields (e : EndpointRow) : Bool :=
  !(e.api.user.username == "") && !(e.api.api_name_slug == "") && !(e.endpoint_path == "")

/-- The registry write of the materializer: set `monetized_url` on every row
whose id matches (ids are unique, so at most one row changes). -/
def writeMonetizedUrl (endpointId url : String) (db : List EndpointRow) :
    List EndpointRow :=
  db.map (fun r => if r.id == endpointId then { r with monetized_url := some url } else r)

/-- One materializer pass as seen from a snapshot of the row: skip when the
snapshot already carries a monetized URL or misses a key field, otherwise
write the value computed from the snapshot.  This is the read-check-write
body of `updateMonetizedUrlForEndpoint`, with the snapshot made explicit so
that two racing invocations can be interleaved. -/
def materializeFromSnapshot (domain : String) (snap : EndpointRow)
    (db : List EndpointRow) : List EndpointRow :=
  if truthyOpt snap.monetized_url then db
  else if materializeReadyFields snap then
    writeMonetizedUrl snap.id (computeMonetizedUrl domain snap) db
  else db

/-- updateMonetizedUrlForEndpoint from utils/updateMonetizedUrls.ts.
`fetchOk` models whether the row fetch succeeded and `writeOk` whether the
registry update succeeded; every failure is absorbed and only logged, and
the function returns the registry state together with its log output. -/
def updateMonetizedUrlForEndpoint (domain endpointId : String)
    (db : List EndpointRow) (fetchOk writeOk : Bool) :
    List EndpointRow × List String :=
  if fetchOk then
    match db.find? (fun r => r.id == endpointId) with
    | none => (db, ["Error fetching endpoint:"])
    | some e =>
      if truthyOpt e.monetized_url then (db, [])
      else if materializeReadyFields e then
        if writeOk then (writeMonetizedUrl e.id (computeMonetizedUrl domain e) db, [])
        else (db, ["Error updating monetized URL for endpoint"])
      else (db, ["Cannot generate monetized URL for endpoint"])
  else (db, ["Error fetching endpoint:"])

/-! ## Requests, responses and collaborator outcomes -/

/-- The fields of the inbound HTTP request that the route handler reads. -/
structure RouteInput where
  username : String
  apiName : String
  endpointPath : String
  privateKeyQuery : Option String
  privateKeyHeader : Option String
  pathname : String
  query : List (String × String)
  method : String
  headers : List (String × String)
  body : Option String
  acceptHtml : Bool
  hasPaymentSignature : Bool
deriving DecidableEq, Repr

/-- An entry of the accepts list of a 402 payment-requirement body:
an opaque original entry plus the amountSTX field the route may add. -/
structure RespAccept where
  base : String
  amountSTX : Option String
deriving DecidableEq, Repr

/-- The body of a response returned to the caller. -/
inductive RespBody where
  | errJson (msg : String)
  | upstream (body : String)
  | direct (body : String)
  | paymentHtml
  | accepts402 (entries : List RespAccept)
deriving DecidableEq, Repr

/-- A response to the caller.  The payment-response header carries the
base64-encoded receipt; it is modelled by the proof it encodes. -/
structure HttpResponse where
  status : Nat
  body : RespBody
  paymentResponseHeader : Option PaymentProof := none
deriving DecidableEq, Repr

/-- The request the forwarding proxy sends to the origin. -/
structure ForwardedRequest where
  scheme : String
  host : String
  path : String
  method : String
  headers : List (String × String)
  body : Option String
deriving DecidableEq, Repr

/-- The request the direct-payment path re-issues against the gateway's own
domain through the payment-wrapped axios client.  The headers field lists
the inbound headers carried over (the payment-protocol headers added by the
external wrapper are outside the model). -/
structure ReissuedRequest where
  method : String
  baseURL : String
  path : String
  headers : List (String × String)
  body : Option String
deriving DecidableEq, Repr

/-- Outcome of the payment middleware for one request.  The x402-stacks
middleware is an external collaborator; per its contract it either ends the
request itself with a payment-requirement or rejection response, or calls
the continuation after the gate reached Verified, with the payment proof
attached to the request context. -/
inductive GateOutcome where
  | respond (status : Nat) (accepts : Option (List String)) (msg : String)
  | verified (proof : PaymentProof)
deriving DecidableEq, Repr

/-- Outcome of the upstream origin call made by the forwarding proxy. -/
inductive UpstreamOutcome where
  | ok (status : Nat) (body : String) (headersSent : Bool)
  | error
deriving DecidableEq, Repr

/-- The already-decoded content of the payment-response header returned by
the facilitator-driven self-request of the direct-payment path. -/
structure PaymentHeaderData where
  payer : Option String
  transaction : Option String
  network : Option String
deriving DecidableEq, Repr

/-- The payment-response header of the direct-payment self-request: absent,
present but undecodable (base64 or JSON failure), or decoded. -/
inductive HeaderDecode where
  | absent
  | malformed
  | decoded (pd : PaymentHeaderData)
deriving DecidableEq, Repr

/-- Outcome of the payment-wrapped self-request of the direct-payment path:
a response (any status the wrapper resolves with), an axios error carrying a
response, or an error without a response. -/
inductive DirectOutcome where
  | ok (status : Nat) (body : String) (header : HeaderDecode)
  | errResponse (status : Nat) (body : String)
  | errNoResponse (msg : String)
deriving DecidableEq, Repr

/-- The per-request environment: outcomes of every external collaborator
call plus the process-wide configuration the route reads. -/
structure Env where
  gate : GateOutcome
  upstream : UpstreamOutcome
  direct : DirectOutcome
  latency : Nat
  insertOk : Bool
  updateOk : Bool
  domain : String
  network : String
  now1 : Nat
  now2 : Nat
deriving DecidableEq, Repr

/-- Result of one handler: the response, the request forwarded to the
origin (if any), the re-issued self-request of the direct path (if any),
the ledger writes issued, and the console diagnostics emitted. -/
structure HandlerResult where
  response : HttpResponse
  forwarded : Option ForwardedRequest := none
  reissued : Option ReissuedRequest := none
  ledgerOps : List LedgerOp := []
  logs : List String := []
deriving DecidableEq, Repr

/-- Result of processing one request end to end: the handler result plus
the registry state after the materializer ran. -/
structure RunResult where
  response : HttpResponse
  forwarded : Option ForwardedRequest
  reissued : Option ReissuedRequest
  ledgerOps : List LedgerOp
  logs : List String
  dbAfter : List EndpointRow
deriving DecidableEq, Repr

/-- Lift a handler result to a run result, prepending the materializer logs
and recording the registry state. -/
def withDb (r : HandlerResult) (matLogs : List String)
    (dbAfter : List EndpointRow) : RunResult :=
  { response := r.response
    forwarded := r.forwarded
    reissued := r.reissued
    ledgerOps := r.ledgerOps
    logs := matLogs ++ r.logs
    dbAfter := dbAfter }

/-! ## Query serialization for the direct-payment path -/

/-- Remove every privateKey parameter from a query, as
searchParams.delete does before the paid request is re-issued. -/
def stripPrivateKey (q : List (String × String)) : List (String × String) :=
  q.filter (fun kv => kv.fst != "privateKey")

/-- Serialize a query back to a search string (url.search). -/
def serializeQuery (q : List (String × String)) : String :=
  match q with
  | [] => ""
  | kv :: rest =>
    "?" ++ (kv.fst ++ "=" ++ kv.snd) ++
      String.join (rest.map (fun kv2 => "&" ++ kv2.fst ++ "=" ++ kv2.snd))

/-! ## The three handlers of proxy.ts -/

/-- The admission-time call record: created when the verified request is
admitted, with null status code and null latency. -/
def admissionRecord (cfg : EndpointConfig) (p : PaymentProof) : CallRecord :=
  { endpoint_id := cfg.id
    caller_wallet := p.payer
    tx_hash := p.transaction
    amount_paid := cfg.price_microstx
    status_code := none
    latency_ms := none }

/-- handleProxiedRequest (proxy.ts lines 404 to 519).  The admission insert
is awaited before the proxy runs but its result is discarded (the supabase
client resolves query failures into an error value rather than throwing),
so insertOk influences nothing; the completion update inside onProxyRes is
dispatched fire-and-forget and its failure only produces a console error. -/
def handleProxiedRequest (payment : Option PaymentProof) (cfg : EndpointConfig)
    (inp : RouteInput) (env : Env) : HandlerResult :=
  let admitOps : List LedgerOp :=
    match payment with
    | some p => [LedgerOp.insert (admissionRecord cfg p) false]
    | none => []
  match parseTargetUrl cfg.original_url with
  | none =>
    { response := { status := 400, body := .errJson "Invalid target URL" }
      ledgerOps := admitOps }
  | some t =>
    let fwd : ForwardedRequest :=
      { scheme := t.scheme
        host := t.host
        path := t.pathname ++ t.search
        method := inp.method
        headers := inp.headers.filter (fun kv => lowerString kv.fst != "host")
        body := inp.body }
    match env.upstream with
    | .error =>
      { response := { status := 502, body := .errJson "Failed to proxy request to target API" }
        forwarded := some fwd
        ledgerOps := admitOps
        logs := ["Proxy error:"] }
    | .ok s b headersSent =>
      let receipt : Option PaymentProof :=
        match payment with
        | some p => if headersSent then none else some p
        | none => none
      let completeOps : List LedgerOp :=
        match payment with
        | some p => [LedgerOp.update p.transaction s env.latency true]
        | none => []
      let updLogs : List String :=
        match payment with
        | some _ => if env.updateOk then [] else ["Error updating API call log:"]
        | none => []
      { response := { status := s, body := .upstream b, paymentResponseHeader := receipt }
        forwarded := some fwd
        ledgerOps := admitOps ++ completeOps
        logs := updLogs }

/-- The payment object the direct-payment path builds from the
payment-response header of the self-request, with the derived payer address
and the configured network as fallbacks (proxy.ts lines 160 to 186). -/
def directPaymentProof (payerAddress network : String) (hdr : HeaderDecode) :
    PaymentProof :=
  match hdr with
  | .decoded pd =>
    { payer := orTruthy pd.payer payerAddress
      transaction := orTruthy pd.transaction ""
      network := orTruthy pd.network network }
  | _ => { payer := payerAddress, transaction := "", network := network }

/-- handleDirectPayment (proxy.ts lines 133 to 222).  The secret is used
only to derive the settlement account; the paid request is re-issued as a
GET against the gateway's own domain with the privateKey parameter removed
from the query, on a fresh axios instance that carries no inbound headers
and no body.  The call record insert is fire-and-forget and only issued when
a transaction reference is available. -/
def handleDirectPayment (inp : RouteInput) (cfg : EndpointConfig) (pk : String)
    (derive : String → String) (env : Env) : HandlerResult :=
  let payerAddress := derive pk
  let requestPath := inp.pathname ++ serializeQuery (stripPrivateKey inp.query)
  let reissued : ReissuedRequest :=
    { method := "GET", baseURL := env.domain, path := requestPath
      headers := [], body := none }
  match env.direct with
  | .ok status data hdr =>
    let payment := directPaymentProof payerAddress env.network hdr
    let ops : List LedgerOp :=
      if payment.transaction == "" then []
      else
        [LedgerOp.insert
          { endpoint_id := cfg.id
            caller_wallet := payment.payer
            tx_hash := payment.transaction
            amount_paid := cfg.price_microstx
            status_code := some status
            latency_ms := some (env.now2 - env.now1) } true]
    let logs : List String :=
      if payment.transaction == "" then []
      else if env.insertOk then [] else ["Error logging API call:"]
    { response := { status := status, body := .direct data }
      reissued := some reissued
      ledgerOps := ops
      logs := logs }
  | .errResponse s b =>
    { response := { status := s, body := .direct b }
      reissued := some reissued
      logs := ["Direct payment error:"] }
  | .errNoResponse m =>
    { response := { status := 500, body := .errJson ("Failed to process payment with private key: " ++ m) }
      logs := ["Direct payment error:"] }

/-- The dynamic proxy route (proxy.ts lines 14 to 127): resolve the
endpoint, run the materializer (the resolver's select omits monetized_url,
so the truthiness guard at line 54 always fires and the materializer runs on
every resolved request; the inner function re-checks from a fresh fetch),
then dispatch to the direct-payment path when a private key is supplied, or
run the payment middleware and, on Verified, the forwarding proxy. -/
def routeAll (db : List EndpointRow) (inp : RouteInput)
    (derive : String → String) (matFetchOk matWriteOk : Bool) (env : Env) :
    RunResult :=
  match resolveEndpoint db inp.username inp.apiName inp.endpointPath with
  | none =>
    { response := { status := 404, body := .errJson "Endpoint not found" }
      forwarded := none, reissued := none, ledgerOps := [], logs := [], dbAfter := db }
  | some e =>
    let mat := updateMonetizedUrlForEndpoint env.domain e.id db matFetchOk matWriteOk
    let cfg : EndpointConfig :=
      { id := e.id
        price_microstx := e.price_microstx
        developer_wallet := e.api.user.wallet_address
        original_url := e.original_url }
    match effectivePrivateKey inp.privateKeyQuery inp.privateKeyHeader with
    | some pk => withDb (handleDirectPayment inp cfg pk derive env) mat.2 mat.1
    | none =>
      match env.gate with
      | .respond s accepts msg =>
        if s == 402 && inp.acceptHtml && !inp.hasPaymentSignature then
          withDb { response := { status := s, body := .paymentHtml } } mat.2 mat.1
        else
          match accepts with
          | some entries =>
            withDb
              { response :=
                  { status := s
                    body := .accepts402 (entries.map (fun a =>
                      ({ base := a
                         amountSTX := if s == 402 then some (priceSTX e.price_microstx) else none } : RespAccept))) } }
              mat.2 mat.1
          | none =>
            withDb { response := { status := s, body := .errJson msg } } mat.2 mat.1
      | .verified p =>
        withDb (handleProxiedRequest (some p) cfg inp env) mat.2 mat.1

/-! ## Concrete exemplars used by witnesses and counterexamples -/

/-- An example user. -/
def userEx : UserRow := { username := "alice", wallet_address := "SP2DEV" }

/-- An example API. -/
def apiEx : ApiRow := { api_name_slug := "weather", api_name := "Weather API", user := userEx }

/-- An example active endpoint without a materialized URL. -/
def endpointEx : EndpointRow :=
  { id := "ep1", endpoint_path := "current"
    original_url := "https://api.example.com/data?unit=c"
    price_microstx := 1500000, active := true, monetized_url := none, api := apiEx }

/-- An example registry. -/
def dbEx : List EndpointRow := [endpointEx]

/-- An example verified payment proof. -/
def proofEx : PaymentProof := { payer := "SP1PAYER", transaction := "0xabc", network := "stacks:1" }

/-- A payment proof whose facilitator confirmation carried no transaction
reference. -/
def proofNoTx : PaymentProof := { payer := "SP1PAYER", transaction := "", network := "stacks:1" }

/-- The endpoint configuration attached for the example endpoint. -/
def cfgEx : EndpointConfig :=
  { id := "ep1", price_microstx := 1500000, developer_wallet := "SP2DEV"
    original_url := "https://api.example.com/data?unit=c" }

/-- An example request for the example endpoint, without a private key. -/
def inpEx : RouteInput :=
  { username := "alice", apiName := "weather", endpointPath := "current"
    privateKeyQuery := none, privateKeyHeader := none
    pathname := "/alice/weather/current", query := []
    method := "GET", headers := [("host", "zedkr.up.railway.app")], body := none
    acceptHtml := false, hasPaymentSignature := false }

/-- An example environment where the gate verified the payment and the
origin answered 200. -/
def envVerifiedEx : Env :=
  { gate := .verified proofEx
    upstream := .ok 200 "ok-body" false
    direct := .ok 200 "data" .absent
    latency := 7, insertOk := true, updateOk := true
    domain := "https://zedkr.up.railway.app", network := "testnet"
    now1 := 0, now2 := 0 }

/-- The example environment with a failing admission insert. -/
def envInsertFail : Env := { envVerifiedEx with insertOk := false }

/-- An environment where the middleware answered with a 402 payment
requirement. -/
def envRespondEx : Env :=
  { envVerifiedEx with gate := .respond 402 (some ["entry0"]) "Payment required" }

/-- An example address-derivation function for the direct-payment path. -/
def deriveEx : String → String := fun _ => "SPDERIVED"

/-- An example request supplying the secret as a query parameter. -/
def inpPk1 : RouteInput :=
  { inpEx with privateKeyQuery := some "key1"
               query := [("privateKey", "key1"), ("unit", "c")] }

/-- The same request with a different secret value. -/
def inpPk2 : RouteInput :=
  { inpEx with privateKeyQuery := some "key2"
               query := [("privateKey", "key2"), ("unit", "c")] }

/-- The secret-bearing request re-issued with a different inbound method,
headers and body. -/
def inpPk1Post : RouteInput :=
  { inpPk1 with method := "POST"
                headers := [("authorization", "Bearer zzz")]
                body := some "payload" }

/-- The self-request the direct path is expected to issue for inpPk1. -/
def reissuedEx : ReissuedRequest :=
  { method := "GET", baseURL := "https://zedkr.up.railway.app"
    path := "/alice/weather/current?unit=c", headers := [], body := none }

/-- The request the forwarding proxy is expected to send for the example
verified run. -/
def fwdEx : ForwardedRequest :=
  { scheme := "https", host := "api.example.com", path := "/data?unit=c"
    method := "GET", headers := [], body := none }

/-! ## Helper lemmas -/

/-- The transaction reference extracted by the direct-payment path does not
depend on the derived payer address. -/
theorem directPaymentProof_transaction (a1 a2 network : String) (hdr : HeaderDecode) :
    (directPaymentProof a1 network hdr).transaction =
      (directPaymentProof a2 network hdr).transaction := by
  cases hdr <;> rfl

/-- The direct-payment path never forwards to the origin itself. -/
theorem handleDirectPayment_forwarded_none (inp : RouteInput) (cfg : EndpointConfig)
    (pk : String) (derive : String → String) (env : Env) :
    (handleDirectPayment inp cfg pk derive env).forwarded = none := by
  rcases henv : env.direct <;> simp [handleDirectPayment, henv]

/-- A row of the written registry that carries the written id carries the
written URL. -/
theorem writeMonetizedUrl_mem (endpointId url : String) (db : List EndpointRow)
    (r : EndpointRow) (hr : r ∈ writeMonetizedUrl endpointId url db)
    (hid : (r.id == endpointId) = true) : r.monetized_url = some url := by
  unfold writeMonetizedUrl at hr
  rw [List.mem_map] at hr
  obtain ⟨y, _, heq⟩ := hr
  by_cases h : (y.id == endpointId) = true
  · rw [if_pos h] at heq
    rw [← heq]
  · rw [if_neg h] at heq
    subst heq
    exact absurd hid h

/-- A failing materializer pass leaves the registry unchanged. -/
theorem updateMonetizedUrlForEndpoint_fail (domain endpointId : String)
    (db : List EndpointRow) (m1 m2 : Bool) (h : m1 = false ∨ m2 = false) :
    (updateMonetizedUrlForEndpoint domain endpointId db m1 m2).1 = db := by
  cases m1 with
  | false => rfl
  | true =>
    rcases h with h | h
    · exact absurd h (by simp)
    · subst h
      simp only [updateMonetizedUrlForEndpoint, if_true]
      rcases hf : db.find? (fun r => r.id == endpointId) with _ | e
      · simp [hf]
      · by_cases h1 : truthyOpt e.monetized_url = true <;>
          by_cases h2 : materializeReadyFields e = true <;>
          simp [hf, h1, h2]

/-! ## Claim theorems -/

/-- C2: the human-readable price of a payment-requirement response is the
integer micro-unit price divided by one million, rendered as a decimal with
trailing zeros trimmed: 1500000 micro-units render as "1.5", 1000000 as
"1" and 1 as "0.000001"; and in a machine-readable 402 response every
accepts entry carries exactly this rendering of the endpoint price as its
amountSTX field. -/
theorem price_rendering :
    priceSTX 1500000 = "1.5" ∧ priceSTX 1000000 = "1" ∧ priceSTX 1 = "0.000001" ∧
    ∀ (db : List EndpointRow) (inp : RouteInput) (derive : String → String)
      (m1 m2 : Bool) (env : Env) (e : EndpointRow) (entries : List String) (msg : String),
      resolveEndpoint db inp.username inp.apiName inp.endpointPath = some e →
      effectivePrivateKey inp.privateKeyQuery inp.privateKeyHeader = none →
      env.gate = GateOutcome.respond 402 (some entries) msg →
      (inp.acceptHtml && !inp.hasPaymentSignature) = false →
      (routeAll db inp derive m1 m2 env).response.body =
        RespBody.accepts402 (entries.map (fun a =>
          { base := a, amountSTX := some (priceSTX e.price_microstx) })) := by
  refine ⟨by decide, by decide, by decide, ?_⟩
  intro db inp derive m1 m2 env e entries msg hres hpk hgate hbrowser
  simp [routeAll, hres, hpk, hgate, withDb, hbrowser]

/-- C2 witness: the payment-requirement response for the concrete example
endpoint carries the rendered price of 1500000 micro-units. -/
theorem price_rendering_witness :
    (routeAll dbEx inpEx deriveEx true true envRespondEx).response.body =
      RespBody.accepts402 (["entry0"].map (fun a =>
        { base := a, amountSTX := some (priceSTX endpointEx.price_microstx) })) :=
  price_rendering.2.2.2 dbEx inpEx deriveEx true true envRespondEx endpointEx
    ["entry0"] "Payment required" (by decide) rfl rfl (by decide)

/-- C3: the monetized-URL materializer computes the persisted URL
deterministically as baseDomain, owner, API slug and path joined by
slashes, a pure function of the row snapshot; a successful pass is exactly
a snapshot-driven conditional write; it leaves the row unchanged when the
stored value is already set; and two racing first-time materializations
from identical snapshots commute and leave the identical computed URL on
the row regardless of write order. -/
theorem monetized_url_materializer (domain : String) (e s1 s2 : EndpointRow)
    (db : List EndpointRow) (hs1 : s1 = e) (hs2 : s2 = e) :
    computeMonetizedUrl domain e =
      domain ++ "/" ++ e.api.user.username ++ "/" ++ e.api.api_name_slug ++ "/" ++ e.endpoint_path
    ∧ (truthyOpt e.monetized_url = true →
        db.find? (fun r => r.id == e.id) = some e →
        (updateMonetizedUrlForEndpoint domain e.id db true true).1 = db)
    ∧ (db.find? (fun r => r.id == e.id) = some e →
        (updateMonetizedUrlForEndpoint domain e.id db true true).1 =
          materializeFromSnapshot domain e db)
    ∧ materializeFromSnapshot domain s1 (materializeFromSnapshot domain s2 db) =
        materializeFromSnapshot domain s2 (materializeFromSnapshot domain s1 db)
    ∧ (truthyOpt e.monetized_url = false → materializeReadyFields e = true →
        ∀ r, r ∈ materializeFromSnapshot domain s1 (materializeFromSnapshot domain s2 db) →
          (r.id == e.id) = true →
          r.monetized_url = some (computeMonetizedUrl domain e)) := by
  refine ⟨rfl, ?_, ?_, by rw [hs1, hs2], ?_⟩
  · intro ht hf
    simp [updateMonetizedUrlForEndpoint, hf, ht]
  · intro hf
    by_cases h1 : truthyOpt e.monetized_url = true <;>
      by_cases h2 : materializeReadyFields e = true <;>
      simp [updateMonetizedUrlForEndpoint, materializeFromSnapshot, hf, h1, h2]
  · intro hunset hready r hr hid
    rw [hs1, hs2] at hr
    simp only [materializeFromSnapshot, hunset, hready, if_true, Bool.false_eq_true,
      if_false] at hr
    exact writeMonetizedUrl_mem e.id (computeMonetizedUrl domain e) _ r hr hid

/-- C3 witness: a concrete double materialization of the example endpoint
persists the computed canonical URL. -/
theorem monetized_url_materializer_witness :
    materializeFromSnapshot "https://zedkr.up.railway.app" endpointEx
        (materializeFromSnapshot "https://zedkr.up.railway.app" endpointEx dbEx) =
      materializeFromSnapshot "https://zedkr.up.railway.app" endpointEx
        (materializeFromSnapshot "https://zedkr.up.railway.app" endpointEx dbEx) ∧
    computeMonetizedUrl "https://zedkr.up.railway.app" endpointEx =
      "https://zedkr.up.railway.app" ++ "/" ++ "alice" ++ "/" ++ "weather" ++ "/" ++ "current" :=
  ⟨(monetized_url_materializer "https://zedkr.up.railway.app" endpointEx endpointEx
      endpointEx dbEx rfl rfl).2.2.2.1,
   (monetized_url_materializer "https://zedkr.up.railway.app" endpointEx endpointEx
      endpointEx dbEx rfl rfl).1⟩

/-- C8: resolution fails when no row matches the key or every matching row
is inactive, the route then answers a 404 response with no forwarding, no
re-issue and no ledger write; and resolution succeeds only on the unique
active endpoint matching all three key components. -/
theorem resolver_not_found (db : List EndpointRow) (inp : RouteInput)
    (derive : String → String) (m1 m2 : Bool) (env : Env) :
    ((∀ e ∈ db, matchesKey e inp.username inp.apiName inp.endpointPath = true →
        e.active = false) →
      resolveEndpoint db inp.username inp.apiName inp.endpointPath = none)
    ∧ (resolveEndpoint db inp.username inp.apiName inp.endpointPath = none →
        (routeAll db inp derive m1 m2 env).response =
          { status := 404, body := .errJson "Endpoint not found" }
        ∧ (routeAll db inp derive m1 m2 env).forwarded = none
        ∧ (routeAll db inp derive m1 m2 env).reissued = none
        ∧ (routeAll db inp derive m1 m2 env).ledgerOps = []
        ∧ (routeAll db inp derive m1 m2 env).dbAfter = db)
    ∧ (∀ e, resolveEndpoint db inp.username inp.apiName inp.endpointPath = some e →
        e ∈ db ∧ matchesKey e inp.username inp.apiName inp.endpointPath = true
        ∧ e.active = true
        ∧ ∀ e' ∈ db, matchesKey e' inp.username inp.apiName inp.endpointPath = true →
            e'.active = true → e' = e) := by
  refine ⟨?_, ?_, ?_⟩
  · intro h
    have hnil : db.filter
        (fun e => matchesKey e inp.username inp.apiName inp.endpointPath && e.active) = [] := by
      refine List.filter_eq_nil_iff.mpr ?_
      intro a ha hpa
      simp only [Bool.and_eq_true] at hpa
      exact absurd hpa.2 (by simp [h a ha hpa.1])
    simp [resolveEndpoint, hnil]
  · intro h
    simp [routeAll, h]
  · intro e he
    unfold resolveEndpoint at he
    rcases hf : db.filter
        (fun e => matchesKey e inp.username inp.apiName inp.endpointPath && e.active)
      with _ | ⟨x, _ | ⟨y, tl⟩⟩ <;> rw [hf] at he <;> simp at he
    have hmem : e ∈ db.filter
        (fun e => matchesKey e inp.username inp.apiName inp.endpointPath && e.active) := by
      rw [hf]
      simp [he]
    have hfe := List.mem_filter.mp hmem
    simp only [Bool.and_eq_true] at hfe
    refine ⟨hfe.1, hfe.2.1, hfe.2.2, ?_⟩
    intro e' he' hm' hact'
    have hmem' : e' ∈ db.filter
        (fun e => matchesKey e inp.username inp.apiName inp.endpointPath && e.active) :=
      List.mem_filter.mpr ⟨he', by simp [hm', hact']⟩
    rw [hf] at hmem'
    simp at hmem'
    rw [hmem', he]

/-- C8 witness: a request for a key under which only an inactive endpoint
exists resolves to nothing and the route answers 404 without side effects. -/
theorem resolver_not_found_witness :
    resolveEndpoint [{ endpointEx with active := false }] "alice" "weather" "current" = none
    ∧ (routeAll [{ endpointEx with active := false }] inpEx deriveEx true true
        envVerifiedEx).response =
      { status := 404, body := .errJson "Endpoint not found" } :=
  ⟨(resolver_not_found [{ endpointEx with active := false }] inpEx deriveEx true true
      envVerifiedEx).1 (by decide),
   ((resolver_not_found [{ endpointEx with active := false }] inpEx deriveEx true true
      envVerifiedEx).2.1 (by decide)).1⟩

/-- C4: for every admitted call (one handled by the forwarding proxy with a
verified payment proof) exactly one call record is created, at admission,
with null upstream status and null latency; at most one completion update
is issued, and every completion update is keyed by the transaction
reference of the payment proof. -/
theorem call_record_lifecycle (p : PaymentProof) (cfg : EndpointConfig)
    (inp : RouteInput) (env : Env) :
    ((handleProxiedRequest (some p) cfg inp env).ledgerOps.filter
        LedgerOp.isInsert).length = 1
    ∧ (∀ c fb, LedgerOp.insert c fb ∈ (handleProxiedRequest (some p) cfg inp env).ledgerOps →
        c = admissionRecord cfg p ∧ c.status_code = none ∧ c.latency_ms = none)
    ∧ ((handleProxiedRequest (some p) cfg inp env).ledgerOps.filter
        LedgerOp.isUpdate).length ≤ 1
    ∧ (∀ k s l fb, LedgerOp.update k s l fb ∈ (handleProxiedRequest (some p) cfg inp env).ledgerOps →
        k = p.transaction) := by
  refine ⟨?_, ?_, ?_, ?_⟩
  · rcases hparse : parseTargetUrl cfg.original_url with _ | t <;>
      rcases hu : env.upstream with ⟨s, b, hs⟩ | _ <;>
      simp [handleProxiedRequest, hparse, hu, LedgerOp.isInsert, LedgerOp.isUpdate]
  · intro c fb h
    rcases hparse : parseTargetUrl cfg.original_url with _ | t <;>
      rcases hu : env.upstream with ⟨s, b, hs⟩ | _ <;>
      simp [handleProxiedRequest, hparse, hu] at h <;>
      simp [h.1, admissionRecord]
  · rcases hparse : parseTargetUrl cfg.original_url with _ | t <;>
      rcases hu : env.upstream with ⟨s, b, hs⟩ | _ <;>
      simp [handleProxiedRequest, hparse, hu, LedgerOp.isInsert, LedgerOp.isUpdate]
  · intro k s' l fb h
    rcases hparse : parseTargetUrl cfg.original_url with _ | t <;>
      rcases hu : env.upstream with ⟨s, b, hs⟩ | _ <;>
      simp [handleProxiedRequest, hparse, hu] at h <;>
      exact h.1

/-- C4 witness: the concrete verified example run creates its admission
record with null status and latency. -/
theorem call_record_lifecycle_witness :
    ((handleProxiedRequest (some proofEx) cfgEx inpEx envVerifiedEx).ledgerOps.filter
        LedgerOp.isInsert).length = 1 :=
  (call_record_lifecycle proofEx cfgEx inpEx envVerifiedEx).1

/-- C5 counterexample: in the middleware proxy path, the completion update
is guarded only by the presence of a payment proof, so a proof whose
transaction reference is empty (facilitator confirmation without a
transaction identifier) produces a completion update keyed on the empty
transaction reference, contradicting that no ledger update keyed on an
empty or missing transaction reference is ever issued. -/
theorem empty_txref_update_counterexample :
    LedgerOp.update "" 200 7 true ∈
      (handleProxiedRequest (some proofNoTx) cfgEx inpEx envVerifiedEx).ledgerOps := by
  decide

/-- C5 amended: in the direct-payment path the ledger insert is skipped
when no transaction reference is available; in the middleware proxy path
the completion update is issued whenever a payment proof is present, keyed
by the proof's transaction reference even when that reference is empty. -/
theorem txref_guard_amended (inp : RouteInput) (cfg : EndpointConfig) (pk : String)
    (derive : String → String) (env : Env) (p : PaymentProof) :
    (∀ status data hdr, env.direct = DirectOutcome.ok status data hdr →
        (directPaymentProof (derive pk) env.network hdr).transaction = "" →
        (handleDirectPayment inp cfg pk derive env).ledgerOps = [])
    ∧ (∀ t s b hs, parseTargetUrl cfg.original_url = some t →
        env.upstream = UpstreamOutcome.ok s b hs →
        LedgerOp.update p.transaction s env.latency true ∈
          (handleProxiedRequest (some p) cfg inp env).ledgerOps) := by
  constructor
  · intro status data hdr hdirect htx
    simp [handleDirectPayment, hdirect, htx]
  · intro t s b hs hparse hu
    simp [handleProxiedRequest, hparse, hu]

/-- C5 witness: concrete runs of both conjuncts of the amended claim. -/
theorem txref_guard_amended_witness :
    (handleDirectPayment inpEx cfgEx "k0" deriveEx
        { envVerifiedEx with direct := .ok 200 "data" .absent }).ledgerOps = []
    ∧ LedgerOp.update "0xabc" 200 7 true ∈
        (handleProxiedRequest (some proofEx) cfgEx inpEx envVerifiedEx).ledgerOps :=
  ⟨(txref_guard_amended inpEx cfgEx "k0" deriveEx
      { envVerifiedEx with direct := .ok 200 "data" .absent } proofEx).1
      200 "data" .absent rfl rfl,
   (txref_guard_amended inpEx cfgEx "k0" deriveEx envVerifiedEx proofEx).2
      { scheme := "https", host := "api.example.com", pathname := "/data", search := "?unit=c" }
      200 "ok-body" false (by decide) rfl⟩

/-- C6 counterexample: with the admission insert failing, the run emits no
diagnostic at all, and the admission write is dispatched awaited (not
fire-and-forget), contradicting that both ledger writes are off the
response critical path with their failure logged. -/
theorem ledger_failure_counterexample :
    (handleProxiedRequest (some proofEx) cfgEx inpEx envInsertFail).logs = []
    ∧ LedgerOp.insert (admissionRecord cfgEx proofEx) false ∈
        (handleProxiedRequest (some proofEx) cfgEx inpEx envInsertFail).ledgerOps := by
  constructor
  · decide
  · decide

/-- C6 amended: a failure of either ledger write never alters the HTTP
status code, body, receipt header or forwarding behaviour of the response;
the completion update is dispatched fire-and-forget and its failure is
logged and otherwise ignored, while the admission insert is awaited before
forwarding but its result is discarded, so its failure is silently ignored
without any log entry. -/
theorem ledger_failure_amended (p : PaymentProof) (cfg : EndpointConfig)
    (inp : RouteInput) (env : Env) (i1 u1 i2 u2 : Bool) :
    ((handleProxiedRequest (some p) cfg inp
        { env with insertOk := i1, updateOk := u1 }).response =
      (handleProxiedRequest (some p) cfg inp
        { env with insertOk := i2, updateOk := u2 }).response)
    ∧ ((handleProxiedRequest (some p) cfg inp
        { env with insertOk := i1, updateOk := u1 }).forwarded =
      (handleProxiedRequest (some p) cfg inp
        { env with insertOk := i2, updateOk := u2 }).forwarded)
    ∧ ((handleProxiedRequest (some p) cfg inp
        { env with insertOk := i1, updateOk := u1 }).ledgerOps =
      (handleProxiedRequest (some p) cfg inp
        { env with insertOk := i2, updateOk := u2 }).ledgerOps)
    ∧ (∀ t s b hs, parseTargetUrl cfg.original_url = some t →
        env.upstream = UpstreamOutcome.ok s b hs →
        (handleProxiedRequest (some p) cfg inp { env with updateOk := false }).logs =
          ["Error updating API call log:"]
        ∧ (handleProxiedRequest (some p) cfg inp
            { env with insertOk := false, updateOk := true }).logs = []
        ∧ LedgerOp.insert (admissionRecord cfg p) false ∈
            (handleProxiedRequest (some p) cfg inp env).ledgerOps
        ∧ LedgerOp.update p.transaction s env.latency true ∈
            (handleProxiedRequest (some p) cfg inp env).ledgerOps) := by
  obtain ⟨gate, upstream, direct, latency, insertOk, updateOk, domain, network, now1, now2⟩ := env
  refine ⟨?_, ?_, ?_, ?_⟩
  · rcases hparse : parseTargetUrl cfg.original_url with _ | t <;>
      rcases hu : upstream with ⟨s, b, hs⟩ | _ <;>
      simp [handleProxiedRequest, hparse, hu]
  · rcases hparse : parseTargetUrl cfg.original_url with _ | t <;>
      rcases hu : upstream with ⟨s, b, hs⟩ | _ <;>
      simp [handleProxiedRequest, hparse, hu]
  · rcases hparse : parseTargetUrl cfg.original_url with _ | t <;>
      rcases hu : upstream with ⟨s, b, hs⟩ | _ <;>
      simp [handleProxiedRequest, hparse, hu]
  · intro t s b hs hparse hu
    subst hu
    simp [handleProxiedRequest, hparse]

/-- C6 witness: concrete runs of the amended claim at the example inputs,
with the completion update failing on one side and succeeding on the
other. -/
theorem ledger_failure_amended_witness :
    (handleProxiedRequest (some proofEx) cfgEx inpEx
        { envVerifiedEx with insertOk := false, updateOk := false }).response =
      (handleProxiedRequest (some proofEx) cfgEx inpEx
        { envVerifiedEx with insertOk := true, updateOk := true }).response :=
  (ledger_failure_amended proofEx cfgEx inpEx envVerifiedEx false false true true).1

/-- C7: in the programmatic payment path the caller-supplied secret is
stripped from the URL before the paid request is re-issued: two requests
that differ only in their secret value produce the same re-issued request
and the same console logs; the re-issued query never contains a privateKey
parameter; and the whole run depends on the secret only through the derived
settlement address, so the secret itself is never forwarded to the origin
nor persisted in logs. -/
theorem secret_noninterference (inp1 inp2 : RouteInput) (cfg : EndpointConfig)
    (pk1 pk2 : String) (derive : String → String) (env : Env)
    (hpath : inp1.pathname = inp2.pathname)
    (hq : stripPrivateKey inp1.query = stripPrivateKey inp2.query) :
    (handleDirectPayment inp1 cfg pk1 derive env).reissued =
      (handleDirectPayment inp2 cfg pk2 derive env).reissued
    ∧ (handleDirectPayment inp1 cfg pk1 derive env).logs =
        (handleDirectPayment inp2 cfg pk2 derive env).logs
    ∧ (∀ kv ∈ stripPrivateKey inp1.query, kv.fst ≠ "privateKey")
    ∧ (derive pk1 = derive pk2 →
        handleDirectPayment inp1 cfg pk1 derive env =
          handleDirectPayment inp2 cfg pk2 derive env) := by
  obtain ⟨gate, upstream, direct, latency, insertOk, updateOk, domain, network, now1, now2⟩ := env
  refine ⟨?_, ?_, ?_, ?_⟩
  · rcases hd : direct with ⟨status, data, hdr⟩ | ⟨s, b⟩ | m <;>
      simp [handleDirectPayment, hd, hpath, hq]
  · rcases hd : direct with ⟨status, data, hdr⟩ | ⟨s, b⟩ | m
    · simp [handleDirectPayment, hd,
        directPaymentProof_transaction (derive pk1) (derive pk2) network hdr]
    · simp [handleDirectPayment, hd]
    · simp [handleDirectPayment, hd]
  · intro kv hkv
    have h := (List.mem_filter.mp hkv).2
    simpa [bne_iff_ne] using h
  · intro hderive
    rcases hd : direct with ⟨status, data, hdr⟩ | ⟨s, b⟩ | m <;>
      simp [handleDirectPayment, hd, hpath, hq, hderive]

/-- C7 witness: two concrete requests differing only in the secret value
produce the same re-issued request and logs, and the stripped query carries
no privateKey parameter. -/
theorem secret_noninterference_witness :
    (handleDirectPayment inpPk1 cfgEx "key1" deriveEx envVerifiedEx).reissued =
      (handleDirectPayment inpPk2 cfgEx "key2" deriveEx envVerifiedEx).reissued
    ∧ (handleDirectPayment inpPk1 cfgEx "key1" deriveEx envVerifiedEx).logs =
        (handleDirectPayment inpPk2 cfgEx "key2" deriveEx envVerifiedEx).logs :=
  ⟨(secret_noninterference inpPk1 inpPk2 cfgEx "key1" "key2" deriveEx envVerifiedEx
      rfl (by decide)).1,
   (secret_noninterference inpPk1 inpPk2 cfgEx "key1" "key2" deriveEx envVerifiedEx
      rfl (by decide)).2.1⟩

/-- C10: the paid request of the programmatic path is always re-issued to
the gateway's own domain as an HTTP GET carrying only the original path and
query minus the secret; the inbound request's method, headers and body are
not carried over, so changing them leaves the re-issued request unchanged. -/
theorem direct_reissue_shape (inp inp2 : RouteInput) (cfg : EndpointConfig)
    (pk : String) (derive : String → String) (env : Env)
    (hpath : inp.pathname = inp2.pathname) (hq : inp.query = inp2.query) :
    (∀ r, (handleDirectPayment inp cfg pk derive env).reissued = some r →
        r.method = "GET" ∧ r.baseURL = env.domain
        ∧ r.path = inp.pathname ++ serializeQuery (stripPrivateKey inp.query)
        ∧ r.headers = [] ∧ r.body = none)
    ∧ (handleDirectPayment inp cfg pk derive env).reissued =
        (handleDirectPayment inp2 cfg pk derive env).reissued := by
  obtain ⟨gate, upstream, direct, latency, insertOk, updateOk, domain, network, now1, now2⟩ := env
  constructor
  · intro r hr
    rcases hd : direct with ⟨status, data, hdr⟩ | ⟨s, b⟩ | m <;>
      simp [handleDirectPayment, hd] at hr <;>
      simp [← hr]
  · rcases hd : direct with ⟨status, data, hdr⟩ | ⟨s, b⟩ | m <;>
      simp [handleDirectPayment, hd, hpath, hq]

/-- C10 witness: changing the inbound method, headers and body of a
concrete secret-bearing request leaves the re-issued GET unchanged, and the
re-issued request has the expected shape. -/
theorem direct_reissue_shape_witness :
    reissuedEx.method = "GET"
    ∧ (handleDirectPayment inpPk1 cfgEx "key1" deriveEx envVerifiedEx).reissued =
        (handleDirectPayment inpPk1Post cfgEx "key1" deriveEx envVerifiedEx).reissued :=
  ⟨((direct_reissue_shape inpPk1 inpPk1Post cfgEx "key1" deriveEx envVerifiedEx
      rfl rfl).1 reissuedEx (by decide)).1,
   (direct_reissue_shape inpPk1 inpPk1Post cfgEx "key1" deriveEx envVerifiedEx
      rfl rfl).2⟩

/-- The forwarding proxy always issues the admission insert for the
attached payment proof. -/
theorem hpr_admission_mem (p : PaymentProof) (cfg : EndpointConfig)
    (inp : RouteInput) (env : Env) :
    LedgerOp.insert (admissionRecord cfg p) false ∈
      (handleProxiedRequest (some p) cfg inp env).ledgerOps := by
  rcases hparse : parseTargetUrl cfg.original_url with _ | t <;>
    rcases hu : env.upstream with ⟨s, b, hs⟩ | _ <;>
    simp [handleProxiedRequest, hparse, hu]

/-- When the upstream answers before headers are flushed, the forwarding
proxy attaches the receipt of the attached payment proof. -/
theorem hpr_receipt (p : PaymentProof) (cfg : EndpointConfig) (inp : RouteInput)
    (env : Env) (s : Nat) (b : String)
    (hu : env.upstream = UpstreamOutcome.ok s b false)
    (t : TargetUrl) (hparse : parseTargetUrl cfg.original_url = some t) :
    (handleProxiedRequest (some p) cfg inp env).response.paymentResponseHeader = some p := by
  simp [handleProxiedRequest, hparse, hu]

/-- A forwarded request implies the origin URL parsed. -/
theorem hpr_forwarded_parse (p : PaymentProof) (cfg : EndpointConfig)
    (inp : RouteInput) (env : Env) (f : ForwardedRequest)
    (h : (handleProxiedRequest (some p) cfg inp env).forwarded = some f) :
    ∃ t, parseTargetUrl cfg.original_url = some t := by
  rcases hparse : parseTargetUrl cfg.original_url with _ | t
  · simp [handleProxiedRequest, hparse] at h
  · exact ⟨t, rfl⟩

/-- C1: a request is forwarded to the origin only when the payment gate
reached the Verified state; the payment proof attached there is then
available to the ledger (the admission insert carries its payer and
transaction reference) and to the forwarding proxy (the receipt header of
the response encodes the same proof when the upstream answers before
headers are flushed). -/
theorem forwarding_requires_verified (db : List EndpointRow) (inp : RouteInput)
    (derive : String → String) (m1 m2 : Bool) (env : Env) (f : ForwardedRequest)
    (h : (routeAll db inp derive m1 m2 env).forwarded = some f) :
    ∃ p, env.gate = GateOutcome.verified p
      ∧ (∃ c, LedgerOp.insert c false ∈ (routeAll db inp derive m1 m2 env).ledgerOps
          ∧ c.caller_wallet = p.payer ∧ c.tx_hash = p.transaction
          ∧ c.status_code = none ∧ c.latency_ms = none)
      ∧ (∀ s b, env.upstream = UpstreamOutcome.ok s b false →
          (routeAll db inp derive m1 m2 env).response.paymentResponseHeader = some p) := by
  rcases hres : resolveEndpoint db inp.username inp.apiName inp.endpointPath with _ | e
  · simp [routeAll, hres] at h
  · rcases hpk : effectivePrivateKey inp.privateKeyQuery inp.privateKeyHeader with _ | pk
    · rcases hg : env.gate with ⟨s, acc, msg⟩ | p
      · exfalso
        rcases acc with _ | entries <;>
          simp only [routeAll, hres, hpk, hg, withDb] at h <;>
          split at h <;> simp at h
      · refine ⟨p, rfl, ?_, ?_⟩
        · simp only [routeAll, hres, hpk, hg, withDb]
          exact ⟨admissionRecord _ p, hpr_admission_mem p _ inp env, rfl, rfl, rfl, rfl⟩
        · intro s b hu
          simp only [routeAll, hres, hpk, hg, withDb] at h ⊢
          obtain ⟨t, hparse⟩ := hpr_forwarded_parse p _ inp env f h
          exact hpr_receipt p _ inp env s b hu t hparse
    · exfalso
      simp only [routeAll, hres, hpk, withDb] at h
      rw [handleDirectPayment_forwarded_none] at h
      exact Option.noConfusion h

/-- C1 witness: the concrete verified example run forwards, with the proof
visible in the ledger insert and in the receipt header. -/
theorem forwarding_requires_verified_witness :
    ∃ p, envVerifiedEx.gate = GateOutcome.verified p
      ∧ (∃ c, LedgerOp.insert c false ∈
            (routeAll dbEx inpEx deriveEx true true envVerifiedEx).ledgerOps
          ∧ c.caller_wallet = p.payer ∧ c.tx_hash = p.transaction
          ∧ c.status_code = none ∧ c.latency_ms = none)
      ∧ (∀ s b, envVerifiedEx.upstream = UpstreamOutcome.ok s b false →
          (routeAll dbEx inpEx deriveEx true true
              envVerifiedEx).response.paymentResponseHeader = some p) :=
  forwarding_requires_verified dbEx inpEx deriveEx true true envVerifiedEx fwdEx (by decide)

/-- C9: the materializer outcome (fetch failure, write failure or success)
never influences the response, the forwarding, the re-issue or the ledger
writes of the customer-facing request, and a failed pass leaves the
registry unchanged, so the materializer is retried on a later call. -/
theorem materializer_nonfatal (db : List EndpointRow) (inp : RouteInput)
    (derive : String → String) (env : Env) (m1 m2 m1' m2' : Bool) :
    (routeAll db inp derive m1 m2 env).response = (routeAll db inp derive m1' m2' env).response
    ∧ (routeAll db inp derive m1 m2 env).forwarded = (routeAll db inp derive m1' m2' env).forwarded
    ∧ (routeAll db inp derive m1 m2 env).reissued = (routeAll db inp derive m1' m2' env).reissued
    ∧ (routeAll db inp derive m1 m2 env).ledgerOps = (routeAll db inp derive m1' m2' env).ledgerOps
    ∧ ((m1 = false ∨ m2 = false) → (routeAll db inp derive m1 m2 env).dbAfter = db) := by
  have hdb : (m1 = false ∨ m2 = false) → (routeAll db inp derive m1 m2 env).dbAfter = db := by
    intro hm
    rcases hres : resolveEndpoint db inp.username inp.apiName inp.endpointPath with _ | e
    · simp [routeAll, hres]
    · rcases hpk : effectivePrivateKey inp.privateKeyQuery inp.privateKeyHeader with _ | pk
      · rcases hg : env.gate with ⟨s, acc, msg⟩ | p
        · rcases acc with _ | entries <;>
            simp only [routeAll, hres, hpk, hg, withDb] <;>
            split <;>
            simp [updateMonetizedUrlForEndpoint_fail env.domain e.id db m1 m2 hm]
        · simp [routeAll, hres, hpk, hg, withDb,
            updateMonetizedUrlForEndpoint_fail env.domain e.id db m1 m2 hm]
      · simp [routeAll, hres, hpk, withDb,
          updateMonetizedUrlForEndpoint_fail env.domain e.id db m1 m2 hm]
  refine ⟨?_, ?_, ?_, ?_, hdb⟩
  all_goals
    rcases hres : resolveEndpoint db inp.username inp.apiName inp.endpointPath with _ | e
    · simp [routeAll, hres]
    · rcases hpk : effectivePrivateKey inp.privateKeyQuery inp.privateKeyHeader with _ | pk
      · rcases hg : env.gate with ⟨s, acc, msg⟩ | p
        · rcases acc with _ | entries <;>
            simp only [routeAll, hres, hpk, hg, withDb] <;>
            split <;>
            simp
        · simp [routeAll, hres, hpk, hg, withDb]
      · simp [routeAll, hres, hpk, withDb]

/-- C9 witness: a concrete run with a failing materializer fetch returns
the same response as a successful one and leaves the registry unchanged. -/
theorem materializer_nonfatal_witness :
    (routeAll dbEx inpEx deriveEx false true envVerifiedEx).dbAfter = dbEx
    ∧ (routeAll dbEx inpEx deriveEx false true envVerifiedEx).response =
        (routeAll dbEx inpEx deriveEx true true envVerifiedEx).response :=
  ⟨(materializer_nonfatal dbEx inpEx deriveEx envVerifiedEx false true true true).2.2.2.2
      (Or.inl rfl),
   (materializer_nonfatal dbEx inpEx deriveEx envVerifiedEx false true true true).1⟩
